import Mathlib

/-!
Verification of the upload/analysis request lifecycle of the AI_Proposal
repository: the Express endpoint `POST /api/analyze-proposal` in
`src/backend/src/server.js` and the client-side request state machine in
the FileUpload component (resetAnalysis, runDemo, analyzeProposal,
exportResultsAsJSON).  External collaborators (pdf-parse, the OpenAI
client, JSON.parse on the model reply, fetch, timers) are modelled as
inputs chosen by the environment; the control flow around them is
translated from the source.
-/

namespace AIProposal

/-! ### JSON values

A JSON value tree, used for HTTP response bodies and for the JSON
serialization in exportResultsAsJSON.  JSON.parse and JSON.stringify
are external builtins; a parse result is represented by the value tree
it yields. -/

inductive Json where
  | null
  | bool (b : Bool)
  | num (n : Int)
  | str (s : String)
  | arr (elems : List Json)
  | obj (fields : List (String × Json))

/-- Field lookup on a JSON object (none on non-objects). -/
def Json.getField : Json → String → Option Json
  | .obj fs, k => fs.lookup k
  | _, _ => none

def Json.isStr : Json → Bool
  | .str _ => true
  | _ => false

def Json.isNum : Json → Bool
  | .num _ => true
  | _ => false

/-- An array whose elements are all strings. -/
def Json.isStrArr : Json → Bool
  | .arr xs => xs.all Json.isStr
  | _ => false

/-- A field is present and satisfies the given check. -/
def Json.fieldIs (j : Json) (k : String) (p : Json → Bool) : Bool :=
  match j.getField k with
  | some v => p v
  | none => false

/-! ### The AnalysisResult shape

The shape of the `AnalysisResult` interface of the FileUpload component
(and of the 200 body of the endpoint): executiveSummary, keyRequirements,
pricingOverview {totalAmount, breakdown, paymentTerms},
recommendedNextSteps, metadata {fileName, fileSize, processedAt,
textLength}. -/

def isPricingShape (j : Json) : Bool :=
  j.fieldIs "totalAmount" Json.isStr &&
  j.fieldIs "breakdown" Json.isStrArr &&
  j.fieldIs "paymentTerms" Json.isStr

def isMetadataShape (j : Json) : Bool :=
  j.fieldIs "fileName" Json.isStr &&
  j.fieldIs "fileSize" Json.isNum &&
  j.fieldIs "processedAt" Json.isStr &&
  j.fieldIs "textLength" Json.isNum

/-- The AnalysisResult shape without the metadata block: what the model
is asked to return. -/
def isAnalysisCoreShape (j : Json) : Bool :=
  j.fieldIs "executiveSummary" Json.isStr &&
  j.fieldIs "keyRequirements" Json.isStrArr &&
  j.fieldIs "pricingOverview" isPricingShape &&
  j.fieldIs "recommendedNextSteps" Json.isStrArr

/-- The full AnalysisResult shape, metadata included. -/
def isAnalysisResultShape (j : Json) : Bool :=
  isAnalysisCoreShape j && j.fieldIs "metadata" isMetadataShape

/-! ### Server model: POST /api/analyze-proposal

Translated from src/backend/src/server.js.  The multer stage (file
filter and the 10 MiB size limit) runs before the handler; the error
middleware maps LIMIT_FILE_SIZE to a 400 and other upload errors to the
generic 500.  Inside the handler: pdf-parse, the empty-text check, the
OpenAI-configured check, the model call, JSON.parse of the reply, and
the metadata merge. -/

/-- The uploaded file as multer presents it (originalname, size in
bytes, declared mimetype). -/
structure IncomingFile where
  originalname : String
  size : Nat
  mimetype : String
deriving DecidableEq, Repr

/-- multer limit: 10 * 1024 * 1024 bytes. -/
def fileSizeLimit : Nat := 10 * 1024 * 1024

/-- Outcome of pdfParse on the uploaded bytes (external library):
either extracted text or a thrown error. -/
inductive ExtractOutcome where
  | ok (text : String)
  | fail
deriving DecidableEq, Repr

/-- Outcome of JSON.parse on the model reply text (external builtin). -/
inductive ModelReply where
  | parses (j : Json)
  | unparseable

/-- Outcome of the OpenAI chat completion call (external service):
a reply text (with its parse outcome), or a thrown error whose message
does or does not mention the API key. -/
inductive ModelOutcome where
  | reply (r : ModelReply)
  | apiKeyError
  | otherError

/-- Everything the environment decides for one request. -/
structure AnalyzeEnv where
  extract : ExtractOutcome
  openaiConfigured : Bool
  model : ModelOutcome
  now : String

structure HttpResponse where
  status : Nat
  body : Json

/-- The response together with which external effects the request
actually performed. -/
structure AnalyzeTrace where
  resp : HttpResponse
  extractionInvoked : Bool
  modelInvoked : Bool

/-- The code checks `!extractedText || extractedText.trim().length === 0`:
the extracted text is empty or whitespace-only. -/
def jsTrimEmpty (s : String) : Bool :=
  s.toList.all Char.isWhitespace

/-- The metadata block attached on success:
`{ fileName: req.file.originalname, fileSize: req.file.size,
processedAt: new Date().toISOString(), textLength: extractedText.length }`. -/
def metadataJson (f : IncomingFile) (textLen : Nat) (now : String) : Json :=
  .obj [("fileName", .str f.originalname),
        ("fileSize", .num f.size),
        ("processedAt", .str now),
        ("textLength", .num textLen)]

/-- `{...analysis, metadata: M}` on an object: every key of `analysis`
keeps its position; a `metadata` key is overwritten, otherwise
`metadata` is appended last.  (JSON.parse never yields duplicate keys.) -/
def setMeta (m : Json) : List (String × Json) → List (String × Json)
  | [] => [("metadata", m)]
  | (k, v) :: rest =>
    if k = "metadata" then ("metadata", m) :: rest
    else (k, v) :: setMeta m rest

/-- `{...analysis, metadata: M}` for an arbitrary parsed value: object
spread of an array or string enumerates index keys, of other primitives
nothing. -/
def spreadWithMeta (analysis : Json) (m : Json) : Json :=
  match analysis with
  | .obj fs => .obj (setMeta m fs)
  | .arr xs => .obj ((xs.enum.map fun p => (toString p.1, p.2)) ++ [("metadata", m)])
  | .str s => .obj ((s.toList.enum.map fun p => (toString p.1, Json.str (String.mk [p.2]))) ++ [("metadata", m)])
  | _ => .obj [("metadata", m)]

/-- The handler body of `app.post('/api/analyze-proposal', ...)`, after
multer: the no-file check, pdf-parse, the empty-text check, the
OpenAI-configured check, the model call, JSON.parse of the reply, and
the 200 with `{...analysis, metadata}`. -/
def analyzeHandler : Option IncomingFile → AnalyzeEnv → AnalyzeTrace
  | none, _ =>
    ⟨⟨400, .obj [("error", .str "No PDF file uploaded")]⟩, false, false⟩
  | some f, env =>
    match env.extract with
    | .fail =>
      ⟨⟨500, .obj [("error", .str "Failed to process proposal")]⟩, true, false⟩
    | .ok text =>
      if jsTrimEmpty text then
        ⟨⟨400, .obj [("error", .str "Could not extract text from PDF")]⟩, true, false⟩
      else if !env.openaiConfigured then
        ⟨⟨503, .obj [("error", .str "AI service configuration error"),
                     ("message", .str "OpenAI API key not configured. Please set OPENAI_API_KEY in environment variables."),
                     ("suggestion", .str "Try the demo mode in the frontend for a sample analysis.")]⟩,
         true, false⟩
      else
        match env.model with
        | .apiKeyError =>
          ⟨⟨500, .obj [("error", .str "AI service configuration error")]⟩, true, true⟩
        | .otherError =>
          ⟨⟨500, .obj [("error", .str "Failed to process proposal")]⟩, true, true⟩
        | .reply .unparseable =>
          ⟨⟨500, .obj [("error", .str "Failed to process AI response")]⟩, true, true⟩
        | .reply (.parses j) =>
          ⟨⟨200, spreadWithMeta j (metadataJson f text.length env.now)⟩, true, true⟩

/-- Outcome of the multer stage for the single `pdf` field: no file,
rejected by the mimetype fileFilter (its plain Error reaches the
generic middleware), over the 10 MiB limit (MulterError
LIMIT_FILE_SIZE), or accepted. -/
inductive MulterOutcome where
  | noFile
  | rejectedType
  | tooLarge
  | accepted (f : IncomingFile)
deriving DecidableEq, Repr

/-- multer: the fileFilter sees the file metadata when the part arrives
and rejects non-PDF mimetypes; the size limit applies while the
accepted file streams. -/
def multerStage : Option IncomingFile → MulterOutcome
  | none => .noFile
  | some f =>
    if f.mimetype ≠ "application/pdf" then .rejectedType
    else if f.size > fileSizeLimit then .tooLarge
    else .accepted f

/-- The whole route: multer, the error-handling middleware for multer
errors, then the handler.  Neither rejection path runs the handler, so
neither invokes extraction or the model. -/
def analyzeEndpoint (upload : Option IncomingFile) (env : AnalyzeEnv) : AnalyzeTrace :=
  match multerStage upload with
  | .noFile => analyzeHandler none env
  | .rejectedType =>
    ⟨⟨500, .obj [("error", .str "Internal server error")]⟩, false, false⟩
  | .tooLarge =>
    ⟨⟨400, .obj [("error", .str "File too large. Maximum size is 10MB.")]⟩, false, false⟩
  | .accepted f => analyzeHandler (some f) env

/-! ### Client data model

The `AnalysisResult` interface of the FileUpload component. -/

structure PricingOverview where
  totalAmount : String
  breakdown : List String
  paymentTerms : String
deriving DecidableEq, Repr

structure ResultMetadata where
  fileName : String
  fileSize : Nat
  processedAt : String
  textLength : Nat
deriving DecidableEq, Repr

structure AnalysisResult where
  executiveSummary : String
  keyRequirements : List String
  pricingOverview : PricingOverview
  recommendedNextSteps : List String
  metadata : ResultMetadata
deriving DecidableEq, Repr

/-! ### exportResultsAsJSON

`JSON.stringify(result, null, 2)` serializes the result verbatim; the
value tree of that serialization, field for field in declaration order,
is `encodeAnalysisResult`.  `decodeAnalysisResult` is what parsing the
exported file back into an AnalysisResult yields. -/

def encodePricing (p : PricingOverview) : Json :=
  .obj [("totalAmount", .str p.totalAmount),
        ("breakdown", .arr (p.breakdown.map Json.str)),
        ("paymentTerms", .str p.paymentTerms)]

def encodeMetadata (m : ResultMetadata) : Json :=
  .obj [("fileName", .str m.fileName),
        ("fileSize", .num m.fileSize),
        ("processedAt", .str m.processedAt),
        ("textLength", .num m.textLength)]

def encodeAnalysisResult (r : AnalysisResult) : Json :=
  .obj [("executiveSummary", .str r.executiveSummary),
        ("keyRequirements", .arr (r.keyRequirements.map Json.str)),
        ("pricingOverview", encodePricing r.pricingOverview),
        ("recommendedNextSteps", .arr (r.recommendedNextSteps.map Json.str)),
        ("metadata", encodeMetadata r.metadata)]

def decodeStr : Json → Option String
  | .str s => some s
  | _ => none

def decodeNat : Json → Option Nat
  | .num n => if 0 ≤ n then some n.toNat else none
  | _ => none

def decodeStrs : List Json → Option (List String)
  | [] => some []
  | j :: js => do
    let s ← decodeStr j
    let rest ← decodeStrs js
    pure (s :: rest)

def decodeStrList (j : Json) : Option (List String) :=
  match j with
  | .arr xs => decodeStrs xs
  | _ => none

def decodePricing (j : Json) : Option PricingOverview := do
  let t ← (j.getField "totalAmount").bind decodeStr
  let b ← (j.getField "breakdown").bind decodeStrList
  let p ← (j.getField "paymentTerms").bind decodeStr
  pure ⟨t, b, p⟩

def decodeMetadata (j : Json) : Option ResultMetadata := do
  let fn ← (j.getField "fileName").bind decodeStr
  let fs ← (j.getField "fileSize").bind decodeNat
  let pa ← (j.getField "processedAt").bind decodeStr
  let tl ← (j.getField "textLength").bind decodeNat
  pure ⟨fn, fs, pa, tl⟩

def decodeAnalysisResult (j : Json) : Option AnalysisResult := do
  let es ← (j.getField "executiveSummary").bind decodeStr
  let kr ← (j.getField "keyRequirements").bind decodeStrList
  let po ← (j.getField "pricingOverview").bind decodePricing
  let ns ← (j.getField "recommendedNextSteps").bind decodeStrList
  let md ← (j.getField "metadata").bind decodeMetadata
  pure ⟨es, kr, po, ns, md⟩

/-! ### Canned results

The two mock payloads of the FileUpload component: the `mockResult` of
`runDemo` and the fallback `mockResult` of `analyzeProposal`.  The
`processedAt` timestamp is `new Date().toISOString()` at the moment the
timer callback runs, passed in as `t`. -/

/-- A selected file as the client sees it (`file.name`, `file.size`). -/
structure FileInfo where
  name : String
  size : Nat
deriving DecidableEq, Repr

/-- `new File(['demo content'], 'sample-proposal.pdf', ...)`:
12 bytes. -/
def demoFile : FileInfo := ⟨"sample-proposal.pdf", 12⟩

/-- The canned result of runDemo. -/
def demoMockResult (t : String) : AnalysisResult where
  executiveSummary := "This comprehensive digital transformation proposal outlines a strategic initiative to modernize legacy systems and enhance operational efficiency. The proposal demonstrates extensive technical expertise in cloud migration, custom software development, and enterprise security implementation. With a total investment of $485,000 over 8 months, this project promises to deliver a 40% improvement in operational efficiency and 25% reduction in IT costs. The proposal includes detailed implementation phases, comprehensive training programs, and ongoing support structures."
  keyRequirements :=
    ["Complete legacy system migration to modern cloud infrastructure with zero downtime",
     "Custom software development including customer portal and mobile applications",
     "Comprehensive staff training program covering 50+ employees across multiple departments",
     "Implementation of enterprise-grade security protocols with multi-factor authentication",
     "24/7 technical support and maintenance coverage for the first 6 months",
     "Real-time data analytics implementation and automated reporting system",
     "Security audit and penetration testing for compliance validation"]
  pricingOverview :=
    { totalAmount := "$485,000"
      breakdown :=
        ["Phase 1 - Legacy Migration & Analysis: $180,000",
         "Phase 2 - Custom Development & Integration: $220,000",
         "Phase 3 - Training, Support & Documentation: $85,000"]
      paymentTerms := "30% upon contract signing ($145,500), 40% at Phase 2 completion ($194,000), 30% upon final delivery ($145,500)" }
  recommendedNextSteps :=
    ["Schedule technical review meeting with client\x27s IT team within 5 business days",
     "Finalize detailed project scope and requirements documentation with stakeholder input",
     "Execute master service agreement and comprehensive statement of work",
     "Begin project kickoff phase with cross-functional team onboarding",
     "Conduct thorough legacy system audit and create detailed migration timeline",
     "Establish communication protocols and project management framework",
     "Set up development environment and testing infrastructure",
     "Create risk mitigation strategies and contingency planning"]
  metadata := ⟨"sample-proposal.pdf", 156789, t, 2847⟩

/-- The fallback mock of analyzeProposal, derived from the selected
file (name interpolated into the summary, name and size in the
metadata). -/
def fallbackMockResult (f : FileInfo) (t : String) : AnalysisResult where
  executiveSummary := "Based on the uploaded proposal \"" ++ f.name ++ "\", this appears to be a comprehensive business proposal outlining digital transformation services. The proposal demonstrates strong technical capabilities and includes detailed project timelines, cost breakdowns, and implementation strategies. The proposed solution addresses key business needs including system modernization, operational efficiency improvements, and technological advancement. This is a well-structured proposal with clear deliverables and professional presentation."
  keyRequirements :=
    ["Complete legacy system migration to modern cloud infrastructure",
     "Custom software development for customer portal and mobile applications",
     "Comprehensive staff training program for 50+ employees",
     "Implementation of enterprise-grade security protocols and multi-factor authentication",
     "24/7 technical support and maintenance for the first 6 months",
     "Data integrity verification and zero-downtime migration requirements"]
  pricingOverview :=
    { totalAmount := "$485,000"
      breakdown :=
        ["Phase 1 - Legacy Migration: $180,000",
         "Phase 2 - Custom Development: $220,000",
         "Phase 3 - Training & Support: $85,000"]
      paymentTerms := "30% upon contract signing, 40% at Phase 2 completion, 30% upon final delivery" }
  recommendedNextSteps :=
    ["Schedule technical review meeting with client\x27s IT team within 5 business days",
     "Finalize detailed project scope and requirements documentation",
     "Execute master service agreement and statement of work",
     "Begin project kickoff phase with team onboarding and stakeholder alignment",
     "Conduct initial system audit and create migration timeline",
     "Establish communication protocols and project management framework"]
  metadata := ⟨f.name, f.size, t, 2847⟩

/-! ### Client state machine

The FileUpload component state: the `file`, `loading`, `result` and
`error` useState hooks, the `abortControllerRef` and `timeoutRef` refs,
and the environment bookkeeping needed to deliver events faithfully:
the set of still-pending timers (setTimeout callbacks neither fired nor
cleared), the pending fetch requests with their AbortController ids,
the set of aborted controller ids, and the toast log.  Each callback
(user click, fetch continuation, timer callback) runs as one atomic
step, as in the browser event loop. -/

inductive TimerKind where
  | demo
  | fallback (f : FileInfo)
deriving DecidableEq, Repr

structure PendingTimer where
  tid : Nat
  kind : TimerKind
deriving DecidableEq, Repr

structure PendingReq where
  ctrl : Nat
  file : FileInfo
deriving DecidableEq, Repr

structure ClientState where
  file : Option FileInfo
  loading : Bool
  result : Option AnalysisResult
  error : Option String
  abortCtrl : Option Nat
  timeoutRef : Option Nat
  timers : List PendingTimer
  reqs : List PendingReq
  abortedCtrls : List Nat
  toasts : List String
  nextCtrl : Nat
  nextTimer : Nat
deriving DecidableEq, Repr

def initState : ClientState where
  file := none
  loading := false
  result := none
  error := none
  abortCtrl := none
  timeoutRef := none
  timers := []
  reqs := []
  abortedCtrls := []
  toasts := []
  nextCtrl := 0
  nextTimer := 0

/-- `resetAnalysis`: abort the current controller if any, clear the
timeout referenced by `timeoutRef` (and only that one), reset loading,
result and error, and toast. -/
def resetAnalysis (s : ClientState) : ClientState where
  file := s.file
  loading := false
  result := none
  error := none
  abortCtrl := none
  timeoutRef := none
  timers := s.timers.filter fun T => some T.tid ≠ s.timeoutRef
  reqs := s.reqs
  abortedCtrls := s.abortedCtrls ++ s.abortCtrl.toList
  toasts := s.toasts ++ ["Analysis stopped and reset successfully"]
  nextCtrl := s.nextCtrl
  nextTimer := s.nextTimer

/-- How the network resolves a non-aborted fetch of analyzeProposal:
a success response whose json is `r`, a non-ok status, or a rejection
(network failure, timeout). -/
inductive ReqOutcome where
  | ok (r : AnalysisResult)
  | httpError (status : Nat)
  | networkError
deriving DecidableEq, Repr

/-- One atomic callback of the component: a user interaction or the
delivery of an environment event (fetch settlement, timer expiry `t`
being the clock reading used for `new Date().toISOString()`). -/
inductive ClientEvent where
  | userDrop (f : FileInfo) (accepted : Bool)
  | userAnalyze
  | userDemo
  | userReset
  | userUploadDifferent
  | reqComplete (c : Nat) (out : ReqOutcome)
  | timerFire (tid : Nat) (t : String)
deriving DecidableEq, Repr

/-- Whether `abortControllerRef.current?.signal.aborted` is true in
state `s`. -/
def currentCtrlAborted (s : ClientState) : Bool :=
  match s.abortCtrl with
  | some c => c ∈ s.abortedCtrls
  | none => false

def step (s : ClientState) (e : ClientEvent) : ClientState :=
  match e with
  | .userDrop f accepted =>
    -- onDrop: a single accepted PDF resets the previous analysis and
    -- becomes the selected file; otherwise an error toast.
    if accepted then { resetAnalysis s with file := some f }
    else { s with toasts := s.toasts ++ ["Please upload a PDF file"] }
  | .userAnalyze =>
    -- analyzeProposal: guarded by a selected file and by the button
    -- being enabled (disabled={loading}); aborts a previous controller
    -- (without touching timeoutRef), installs a fresh controller,
    -- sets loading, clears error and issues the fetch.
    match s.file with
    | none => s
    | some f =>
      if s.loading then s
      else
        { s with
          abortedCtrls := s.abortedCtrls ++ s.abortCtrl.toList
          abortCtrl := some s.nextCtrl
          loading := true
          error := none
          reqs := s.reqs ++ [⟨s.nextCtrl, f⟩]
          nextCtrl := s.nextCtrl + 1 }
  | .userDemo =>
    -- runDemo: guarded by the button being enabled; resetAnalysis,
    -- then loading, the demo file, and the 3000 ms timer.
    if s.loading then s
    else
      let s1 := resetAnalysis s
      { s1 with
        loading := true
        error := none
        file := some demoFile
        timers := s1.timers ++ [⟨s1.nextTimer, .demo⟩]
        timeoutRef := some s1.nextTimer
        nextTimer := s1.nextTimer + 1 }
  | .userReset => resetAnalysis s
  | .userUploadDifferent =>
    -- the Upload Different File button: resetAnalysis() then setFile(null).
    { resetAnalysis s with file := none }
  | .reqComplete c out =>
    match s.reqs.find? (fun r => r.ctrl == c) with
    | none => s
    | some r =>
      let s0 := { s with reqs := s.reqs.filter fun r2 => r2.ctrl ≠ c }
      if c ∈ s0.abortedCtrls then
        -- the fetch rejects with AbortError: catch returns, the
        -- finally block still clears loading and the controller ref.
        { s0 with loading := false, abortCtrl := none }
      else
        match out with
        | .ok res =>
          -- response.ok: parse json, check the cancellation token,
          -- set the result and toast; then the finally block.
          if currentCtrlAborted s0 then
            { s0 with loading := false, abortCtrl := none }
          else
            { s0 with
              result := some res
              toasts := s0.toasts ++ ["Proposal analyzed successfully!"]
              loading := false
              abortCtrl := none }
        | _ =>
          -- a non-ok status throws, and any non-abort error falls back:
          -- schedule the 2000 ms mock timer (overwriting timeoutRef
          -- without clearing a previous timer); then the finally block.
          { s0 with
            timers := s0.timers ++ [⟨s0.nextTimer, .fallback r.file⟩]
            timeoutRef := some s0.nextTimer
            nextTimer := s0.nextTimer + 1
            loading := false
            abortCtrl := none }
  | .timerFire tid t =>
    match s.timers.find? (fun T => T.tid == tid) with
    | none => s
    | some T =>
      let s0 := { s with timers := s.timers.filter fun T2 => T2.tid ≠ tid }
      match T.kind with
      | .demo =>
        -- runDemo callback: bail out when timeoutRef is null,
        -- otherwise set the canned result, stop loading, toast.
        if s0.timeoutRef = none then s0
        else
          { s0 with
            result := some (demoMockResult t)
            loading := false
            timeoutRef := none
            toasts := s0.toasts ++ ["Demo analysis complete! This is how real AI analysis works."] }
      | .fallback f =>
        -- analyzeProposal fallback callback: bail out when timeoutRef
        -- is null or the current controller signal is aborted,
        -- otherwise set the mock result and toast (loading was already
        -- cleared by the finally block).
        if s0.timeoutRef = none ∨ currentCtrlAborted s0 then s0
        else
          { s0 with
            result := some (fallbackMockResult f t)
            timeoutRef := none
            toasts := s0.toasts ++ ["Proposal analyzed successfully! (Demo mode)"] }

/-- Run a sequence of callbacks. -/
def run (s : ClientState) (es : List ClientEvent) : ClientState :=
  es.foldl step s

/-- The state the claims call visible: the rendered result, the
rendered error, and the toast log. -/
def visible (s : ClientState) : Option AnalysisResult × Option String × List String :=
  (s.result, s.error, s.toasts)

/-! ### Interleaving vocabulary

Predicates on callbacks used to state the cancellation claims: an
environment callback (fetch settlement or timer expiry, as opposed to
a user interaction), and a callback that is stale with respect to the
demo timer `dt` of the most recently started operation. -/

def isEnvEvent : ClientEvent → Bool
  | .reqComplete _ _ => true
  | .timerFire _ _ => true
  | _ => false

/-- A callback not belonging to the operation whose timer is `dt`:
any fetch settlement, or the expiry of any other timer. -/
def isStaleEvent (dt : Nat) : ClientEvent → Bool
  | .reqComplete _ _ => true
  | .timerFire tid _ => tid != dt
  | _ => false

/-- The configuration right after runDemo has started: the demo timer
`dt` is the only pending timer and is the one referenced by
`timeoutRef`, no error is displayed, and every pending fetch has
already been aborted. -/
def DemoPending (s : ClientState) (dt : Nat) : Prop :=
  s.timers = [⟨dt, .demo⟩] ∧
  s.timeoutRef = some dt ∧
  s.error = none ∧
  ∀ r ∈ s.reqs, r.ctrl ∈ s.abortedCtrls

/-- The configuration after the demo timer fired: no pending timer,
and every pending fetch has been aborted. -/
def DemoDone (s : ClientState) : Prop :=
  s.timers = [] ∧ ∀ r ∈ s.reqs, r.ctrl ∈ s.abortedCtrls

/-- At most one live operation and no stale timer: every pending timer
is the one referenced by `timeoutRef`, and every pending fetch is
either aborted or owned by the current controller.  This holds in every
state reachable without overlapping a second direct analyzeProposal
with a pending fallback timer. -/
def SingleOp (s : ClientState) : Prop :=
  (∀ T ∈ s.timers, s.timeoutRef = some T.tid) ∧
  (∀ r ∈ s.reqs, r.ctrl ∈ s.abortedCtrls ∨ s.abortCtrl = some r.ctrl)

/-! ### Concrete sample inputs used by witnesses and counterexamples -/

def fileA : FileInfo := ⟨"a.pdf", 4096⟩

/-- A server-produced result for counterexample traces (its content is
chosen arbitrarily: any parsed 200 body the server could return). -/
def serverResultB : AnalysisResult :=
  ⟨"S", [], ⟨"$0", [], "none"⟩, [], ⟨"a.pdf", 4096, "T2", 5⟩⟩

/-- A first analysis whose fetch fails (transport error), leaving its
fallback timer (tid 0) pending, followed by a second direct analysis
whose fetch succeeds. -/
def c2Trace : List ClientEvent :=
  [.userDrop fileA true, .userAnalyze, .reqComplete 0 .networkError,
   .userAnalyze, .reqComplete 1 (.ok serverResultB)]

/-- Two failed analyses leave a stale fallback timer (tid 0) beside the
referenced one (tid 1); runDemo then clears only tid 1 and starts the
demo timer (tid 2); the stale timer fires first, the demo timer finds
timeoutRef already null and bails out. -/
def c3Trace : List ClientEvent :=
  [.userDrop fileA true, .userAnalyze, .reqComplete 0 .networkError,
   .userAnalyze, .reqComplete 1 .networkError,
   .userDemo, .timerFire 0 "T7", .timerFire 2 "T8"]

/-- A first analysis in its fallback-timer phase, about to be
superseded by runDemo. -/
def c2SetupTrace : List ClientEvent :=
  [.userDrop fileA true, .userAnalyze, .reqComplete 0 .networkError]

def sampleFile : IncomingFile := ⟨"proposal.pdf", 2048, "application/pdf"⟩

def sampleNow : String := "2026-01-05T10:00:00.000Z"

/-- A well-shaped model reply (the core fields, no metadata). -/
def sampleCoreJson : Json :=
  .obj [("executiveSummary", .str "A proposal."),
        ("keyRequirements", .arr [.str "req1"]),
        ("pricingOverview", .obj [("totalAmount", .str "$1"),
                                  ("breakdown", .arr [.str "item"]),
                                  ("paymentTerms", .str "net 30")]),
        ("recommendedNextSteps", .arr [.str "call"])]

def envWellShaped : AnalyzeEnv :=
  ⟨.ok "A proposal body", true, .reply (.parses sampleCoreJson), sampleNow⟩

def envNonconforming : AnalyzeEnv :=
  ⟨.ok "A proposal body", true, .reply (.parses (.obj [("foo", .str "bar")])), sampleNow⟩

/-! ## Theorems -/

/-! ### setMeta lookup lemmas -/

theorem lookup_setMeta_self (m : Json) (fs : List (String × Json)) :
    (setMeta m fs).lookup "metadata" = some m := by
  induction fs with
  | nil => simp [setMeta, List.lookup]
  | cons hd tl ih =>
    obtain ⟨k, v⟩ := hd
    by_cases hk : k = "metadata"
    · subst hk
      simp [setMeta, List.lookup]
    · have hbeq : ("metadata" == k) = false := beq_eq_false_iff_ne.mpr (Ne.symm hk)
      simp only [setMeta, if_neg hk, List.lookup, hbeq]
      exact ih

theorem lookup_setMeta_ne (m : Json) (fs : List (String × Json)) (k : String)
    (hk : k ≠ "metadata") :
    (setMeta m fs).lookup k = fs.lookup k := by
  have hbeq : (k == "metadata") = false := beq_eq_false_iff_ne.mpr hk
  induction fs with
  | nil => simp [setMeta, List.lookup, hbeq]
  | cons hd tl ih =>
    obtain ⟨k1, v1⟩ := hd
    by_cases h1 : k1 = "metadata"
    · subst h1
      simp only [setMeta, if_pos rfl, List.lookup, hbeq]
    · simp only [setMeta, if_neg h1, List.lookup]
      cases h2 : (k == k1) with
      | true => rfl
      | false => exact ih

theorem fieldIs_setMeta_core (m : Json) (fs : List (String × Json)) (k : String)
    (p : Json → Bool) (hk : k ≠ "metadata") :
    (Json.obj (setMeta m fs)).fieldIs k p = (Json.obj fs).fieldIs k p := by
  simp [Json.fieldIs, Json.getField, lookup_setMeta_ne m fs k hk]

theorem fieldIs_setMeta_meta (m : Json) (fs : List (String × Json)) (p : Json → Bool) :
    (Json.obj (setMeta m fs)).fieldIs "metadata" p = p m := by
  simp [Json.fieldIs, Json.getField, lookup_setMeta_self]

theorem coreShape_setMeta (m : Json) (fs : List (String × Json)) :
    isAnalysisCoreShape (.obj (setMeta m fs)) = isAnalysisCoreShape (.obj fs) := by
  simp [isAnalysisCoreShape,
    fieldIs_setMeta_core m fs "executiveSummary" _ (by decide),
    fieldIs_setMeta_core m fs "keyRequirements" _ (by decide),
    fieldIs_setMeta_core m fs "pricingOverview" _ (by decide),
    fieldIs_setMeta_core m fs "recommendedNextSteps" _ (by decide)]

theorem metadataJson_shape (f : IncomingFile) (tl : Nat) (now : String) :
    isMetadataShape (metadataJson f tl now) = true := by
  simp [isMetadataShape, metadataJson, Json.fieldIs, Json.getField, List.lookup,
    Json.isStr, Json.isNum]

/-! ### C4: empty or whitespace-only extracted text -/

/-- C4 (confirmed).  For every uploaded PDF whose extracted text is
empty or whitespace-only, the endpoint responds 400 with the
EMPTY_OR_IMAGE_ONLY_PDF typed error (realized in the code as the body
`{error: "Could not extract text from PDF"}`) and the model is never
invoked. -/
theorem emptyPdf_rejected_without_model (f : IncomingFile) (env : AnalyzeEnv)
    (text : String)
    (hmime : f.mimetype = "application/pdf")
    (hsize : f.size ≤ fileSizeLimit)
    (hex : env.extract = .ok text)
    (hempty : jsTrimEmpty text = true) :
    analyzeEndpoint (some f) env =
      ⟨⟨400, .obj [("error", .str "Could not extract text from PDF")]⟩, true, false⟩ := by
  have hlt : ¬ f.size > fileSizeLimit := not_lt.mpr hsize
  simp [analyzeEndpoint, multerStage, analyzeHandler, hmime, hlt, hex, hempty]

theorem emptyPdf_rejected_without_model_witness :
    jsTrimEmpty "  \n " = true ∧
    analyzeEndpoint (some sampleFile)
        ⟨.ok "  \n ", true, .reply (.parses sampleCoreJson), sampleNow⟩ =
      ⟨⟨400, .obj [("error", .str "Could not extract text from PDF")]⟩, true, false⟩ :=
  ⟨by decide,
   emptyPdf_rejected_without_model sampleFile _ "  \n " rfl (by decide) rfl (by decide)⟩

/-! ### C6: oversized upload -/

/-- C6 (confirmed).  An upload larger than 10 MiB never reaches text
extraction; for a declared-PDF upload the multer LIMIT_FILE_SIZE error
is mapped by the error middleware to a 400 with
`{error: "File too large. Maximum size is 10MB."}`.  (A non-PDF
oversized upload is already rejected by the mimetype fileFilter, also
without extraction.) -/
theorem oversizeUpload_rejected_without_extraction (f : IncomingFile) (env : AnalyzeEnv)
    (hsize : fileSizeLimit < f.size) :
    (analyzeEndpoint (some f) env).extractionInvoked = false ∧
    (f.mimetype = "application/pdf" →
      (analyzeEndpoint (some f) env).resp =
        ⟨400, .obj [("error", .str "File too large. Maximum size is 10MB.")]⟩) := by
  by_cases hmime : f.mimetype = "application/pdf"
  · constructor
    · simp [analyzeEndpoint, multerStage, hmime, hsize]
    · intro _
      simp [analyzeEndpoint, multerStage, hmime, hsize]
  · constructor
    · simp [analyzeEndpoint, multerStage, hmime]
    · intro h
      exact absurd h hmime

theorem oversizeUpload_rejected_without_extraction_witness :
    fileSizeLimit < 10485761 ∧
    (analyzeEndpoint (some ⟨"big.pdf", 10485761, "application/pdf"⟩)
        ⟨.ok "text", true, .reply (.parses sampleCoreJson), sampleNow⟩).extractionInvoked
      = false ∧
    (analyzeEndpoint (some ⟨"big.pdf", 10485761, "application/pdf"⟩)
        ⟨.ok "text", true, .reply (.parses sampleCoreJson), sampleNow⟩).resp =
      ⟨400, .obj [("error", .str "File too large. Maximum size is 10MB.")]⟩ := by
  refine ⟨by decide, ?_, ?_⟩
  · exact (oversizeUpload_rejected_without_extraction _ _ (by decide)).1
  · exact (oversizeUpload_rejected_without_extraction _ _ (by decide)).2 rfl

/-! ### C7: model not configured -/

/-- C7 (confirmed).  With extractable text but no OpenAI credential,
the endpoint responds 503 with the AI_NOT_CONFIGURED typed error
(realized as `{error, message, suggestion}` where the suggestion points
at the client demo mode) and the model is never invoked. -/
theorem aiNotConfigured_503_without_model (f : IncomingFile) (env : AnalyzeEnv)
    (text : String)
    (hmime : f.mimetype = "application/pdf")
    (hsize : f.size ≤ fileSizeLimit)
    (hex : env.extract = .ok text)
    (hne : jsTrimEmpty text = false)
    (hconf : env.openaiConfigured = false) :
    analyzeEndpoint (some f) env =
      ⟨⟨503, .obj [("error", .str "AI service configuration error"),
                   ("message", .str "OpenAI API key not configured. Please set OPENAI_API_KEY in environment variables."),
                   ("suggestion", .str "Try the demo mode in the frontend for a sample analysis.")]⟩,
       true, false⟩ := by
  have hlt : ¬ f.size > fileSizeLimit := not_lt.mpr hsize
  simp [analyzeEndpoint, multerStage, analyzeHandler, hmime, hlt, hex, hne, hconf]

/-! ### C1: successful analysis -/

/-- C1 counterexample.  The handler only runs the model reply through
JSON.parse and never validates its shape: a reply that parses as the
empty object is forwarded as a 200 whose body (after the metadata
merge) does not match the AnalysisResult shape, although the file is a
valid small PDF with extractable text, the model is configured and the
reply is parseable JSON — so the claim as stated fails. -/
theorem analyze_success_shape_counterexample :
    (analyzeEndpoint (some sampleFile)
        ⟨.ok "A proposal body", true, .reply (.parses (.obj [])), sampleNow⟩).resp.status
      = 200 ∧
    isAnalysisResultShape
      (analyzeEndpoint (some sampleFile)
        ⟨.ok "A proposal body", true, .reply (.parses (.obj [])), sampleNow⟩).resp.body
      = false :=
  ⟨rfl, rfl⟩

/-- C1 (corrected).  When the parseable model reply moreover matches
the AnalysisResult core shape, the endpoint responds 200, the body
matches the full AnalysisResult shape, and the metadata block is
exactly the server-attached one: fileName is the submitted name,
fileSize its byte size, textLength the extracted text length,
processedAt the server clock reading. -/
theorem analyze_success_shape_and_metadata (f : IncomingFile) (env : AnalyzeEnv)
    (text : String) (j : Json)
    (hmime : f.mimetype = "application/pdf")
    (hsize : f.size ≤ fileSizeLimit)
    (hex : env.extract = .ok text)
    (hne : jsTrimEmpty text = false)
    (hconf : env.openaiConfigured = true)
    (hmodel : env.model = .reply (.parses j))
    (hshape : isAnalysisCoreShape j = true) :
    (analyzeEndpoint (some f) env).resp.status = 200 ∧
    isAnalysisResultShape (analyzeEndpoint (some f) env).resp.body = true ∧
    ((analyzeEndpoint (some f) env).resp.body).getField "metadata"
      = some (metadataJson f text.length env.now) ∧
    (metadataJson f text.length env.now).getField "fileName" = some (.str f.originalname) ∧
    (metadataJson f text.length env.now).getField "fileSize" = some (.num f.size) ∧
    (metadataJson f text.length env.now).getField "textLength" = some (.num text.length) ∧
    (metadataJson f text.length env.now).getField "processedAt" = some (.str env.now) := by
  have hlt : ¬ f.size > fileSizeLimit := not_lt.mpr hsize
  cases j
  case obj fs =>
    have hresp : analyzeEndpoint (some f) env =
        ⟨⟨200, .obj (setMeta (metadataJson f text.length env.now) fs)⟩, true, true⟩ := by
      simp [analyzeEndpoint, multerStage, analyzeHandler, hmime, hlt, hex, hne, hconf,
        hmodel, spreadWithMeta]
    rw [hresp]
    refine ⟨rfl, ?_, ?_, ?_, ?_, ?_, ?_⟩
    · show isAnalysisResultShape (.obj (setMeta (metadataJson f text.length env.now) fs))
        = true
      rw [isAnalysisResultShape, coreShape_setMeta, hshape, fieldIs_setMeta_meta,
        metadataJson_shape]
      rfl
    · show Json.getField (.obj (setMeta (metadataJson f text.length env.now) fs)) "metadata"
        = _
      rw [Json.getField, lookup_setMeta_self]
    all_goals simp [metadataJson, Json.getField, List.lookup]
  all_goals simp [isAnalysisCoreShape, Json.fieldIs, Json.getField] at hshape

theorem analyze_success_shape_and_metadata_witness :
    (analyzeEndpoint (some sampleFile) envWellShaped).resp.status = 200 ∧
    isAnalysisResultShape (analyzeEndpoint (some sampleFile) envWellShaped).resp.body
      = true :=
  ⟨(analyze_success_shape_and_metadata sampleFile envWellShaped "A proposal body"
      sampleCoreJson rfl (by decide) rfl (by decide) rfl rfl rfl).1,
   (analyze_success_shape_and_metadata sampleFile envWellShaped "A proposal body"
      sampleCoreJson rfl (by decide) rfl (by decide) rfl rfl rfl).2.1⟩

/-! ### C8: malformed model reply -/

/-- C8 counterexample.  A model reply that parses as JSON but is not of
the AnalysisResult shape is not rejected: the endpoint responds 200,
not 500, and the malformed content is forwarded to the caller inside
the success body — so the claim as stated fails. -/
theorem parseableNonconforming_forwarded_counterexample :
    (analyzeEndpoint (some sampleFile) envNonconforming).resp.status = 200 ∧
    (analyzeEndpoint (some sampleFile) envNonconforming).resp.status ≠ 500 ∧
    (analyzeEndpoint (some sampleFile) envNonconforming).resp.body.getField "foo"
      = some (.str "bar") ∧
    isAnalysisResultShape (analyzeEndpoint (some sampleFile) envNonconforming).resp.body
      = false :=
  ⟨rfl, by decide, rfl, rfl⟩

/-- C8 (corrected).  Only JSON.parse failure of the model reply is
detected: then the endpoint responds 500 with the
AI_RESPONSE_UNPARSEABLE typed error (realized as
`{error: "Failed to process AI response"}`) and no success body is
produced.  A reply that parses but does not match the shape is
forwarded as a 200 (see the counterexample). -/
theorem unparseableReply_500 (f : IncomingFile) (env : AnalyzeEnv) (text : String)
    (hmime : f.mimetype = "application/pdf")
    (hsize : f.size ≤ fileSizeLimit)
    (hex : env.extract = .ok text)
    (hne : jsTrimEmpty text = false)
    (hconf : env.openaiConfigured = true)
    (hmodel : env.model = .reply .unparseable) :
    (analyzeEndpoint (some f) env).resp =
      ⟨500, .obj [("error", .str "Failed to process AI response")]⟩ ∧
    (analyzeEndpoint (some f) env).resp.status ≠ 200 := by
  have hlt : ¬ f.size > fileSizeLimit := not_lt.mpr hsize
  have hresp : analyzeEndpoint (some f) env =
      ⟨⟨500, .obj [("error", .str "Failed to process AI response")]⟩, true, true⟩ := by
    simp [analyzeEndpoint, multerStage, analyzeHandler, hmime, hlt, hex, hne, hconf, hmodel]
  rw [hresp]
  exact ⟨rfl, by decide⟩

theorem unparseableReply_500_witness :
    (analyzeEndpoint (some sampleFile)
        ⟨.ok "A proposal body", true, .reply .unparseable, sampleNow⟩).resp =
      ⟨500, .obj [("error", .str "Failed to process AI response")]⟩ :=
  (unparseableReply_500 sampleFile _ "A proposal body" rfl (by decide) rfl (by decide)
    rfl rfl).1

theorem aiNotConfigured_503_without_model_witness :
    jsTrimEmpty "A proposal body" = false ∧
    analyzeEndpoint (some sampleFile)
        ⟨.ok "A proposal body", false, .reply (.parses sampleCoreJson), sampleNow⟩ =
      ⟨⟨503, .obj [("error", .str "AI service configuration error"),
                   ("message", .str "OpenAI API key not configured. Please set OPENAI_API_KEY in environment variables."),
                   ("suggestion", .str "Try the demo mode in the frontend for a sample analysis.")]⟩,
       true, false⟩ :=
  ⟨by decide,
   aiNotConfigured_503_without_model sampleFile _ "A proposal body" rfl (by decide) rfl
     (by decide) rfl⟩

/-! ### C9: JSON export round-trip -/

theorem decodeStrs_map (xs : List String) :
    decodeStrs (xs.map Json.str) = some xs := by
  induction xs with
  | nil => rfl
  | cons x xs ih => simp [decodeStrs, decodeStr, ih]

/-- C9 (confirmed).  exportResultsAsJSON passes the held result itself
to JSON.stringify with no transformation; parsing the exported
serialization back into an AnalysisResult reproduces an equal value,
for every result the presenter can hold. -/
theorem exportJSON_roundtrip (r : AnalysisResult) :
    decodeAnalysisResult (encodeAnalysisResult r) = some r := by
  obtain ⟨es, kr, po, ns, md⟩ := r
  obtain ⟨ta, bd, pt⟩ := po
  obtain ⟨fn, fsz, pa, tl⟩ := md
  simp [encodeAnalysisResult, decodeAnalysisResult, encodePricing, decodePricing,
    encodeMetadata, decodeMetadata, Json.getField, List.lookup, decodeStr, decodeNat,
    decodeStrList, decodeStrs_map, Option.bind]

/-! ### C10: resetAnalysis frame -/

/-- C10 (confirmed).  resetAnalysis clears the result, the error, the
loading flag, the referenced pending timer and the in-flight request
handle (aborting its controller), but leaves the selected file
untouched; clearing the file happens only through the separate Upload
Different File action. -/
theorem resetAnalysis_frame (s : ClientState) :
    (resetAnalysis s).file = s.file ∧
    (resetAnalysis s).result = none ∧
    (resetAnalysis s).error = none ∧
    (resetAnalysis s).loading = false ∧
    (resetAnalysis s).timeoutRef = none ∧
    (resetAnalysis s).timers = s.timers.filter (fun T => some T.tid ≠ s.timeoutRef) ∧
    (resetAnalysis s).abortCtrl = none ∧
    (resetAnalysis s).abortedCtrls = s.abortedCtrls ++ s.abortCtrl.toList ∧
    (step s .userUploadDifferent).file = none :=
  ⟨rfl, rfl, rfl, rfl, rfl, rfl, rfl, rfl, rfl⟩

/-! ### C5: a 400 extraction error triggers the demo fallback -/

/-- C5 (the code diverges from the claim).  A non-ok response — here a
typed 400 as returned for empty or unreadable PDF content — is thrown
and caught by the same handler as a transport error: the client
schedules the 2000 ms fallback timer and, when it fires, displays the
locally synthesized demo result with a success toast, exactly the
fallback-to-demo path the claim reserves for transport errors. -/
theorem extractionError400_triggers_fallback :
    (run initState (c2SetupTrace.take 2 ++ [.reqComplete 0 (.httpError 400)])).timers
      = [⟨0, .fallback fileA⟩] ∧
    (run initState (c2SetupTrace.take 2 ++ [.reqComplete 0 (.httpError 400)])).timeoutRef
      = some 0 ∧
    (run initState (c2SetupTrace.take 2 ++ [.reqComplete 0 (.httpError 400),
        .timerFire 0 "T1"])).result
      = some (fallbackMockResult fileA "T1") ∧
    (run initState (c2SetupTrace.take 2 ++ [.reqComplete 0 (.httpError 400),
        .timerFire 0 "T1"])).toasts
      = ["Analysis stopped and reset successfully",
         "Proposal analyzed successfully! (Demo mode)"] :=
  ⟨rfl, rfl, rfl, rfl⟩

/-! ### C2: a superseded operation can still mutate visible state -/

/-- C2 counterexample.  First operation: analyzeProposal whose fetch
fails, scheduling the fallback timer.  Second operation: a second
analyzeProposal (the Analyze button is enabled again, loading is
false), whose fetch succeeds and renders the server result.  The first
operation was superseded, yet its late fallback-timer callback fires —
analyzeProposal cleared neither the pending timer nor timeoutRef — and
overwrites the second operation result with the first operation mock
fallback, adding a toast: a visible state change, and the final result
does not pertain to the second operation. -/
theorem secondAnalysis_staleTimer_counterexample :
    (run initState c2Trace).result = some serverResultB ∧
    (step (run initState c2Trace) (.timerFire 0 "T9")).result
      = some (fallbackMockResult fileA "T9") ∧
    fallbackMockResult fileA "T9" ≠ serverResultB ∧
    (step (run initState c2Trace) (.timerFire 0 "T9")).toasts
      = (run initState c2Trace).toasts ++ ["Proposal analyzed successfully! (Demo mode)"] :=
  ⟨rfl, rfl, by decide, rfl⟩

/-! ### C3: runDemo from an arbitrary prior state -/

/-- C3 counterexample.  From the prior state left by two failed direct
analyses (a stale fallback timer pending beside the referenced one),
runDemo resets only the referenced timer; the stale fallback timer
fires during the demo delay, sets the fallback result and nulls
timeoutRef, whereupon the demo timer callback bails out: the canned
demo result is never shown, loading is stuck true, and no pending
timer remains that could still deliver it. -/
theorem runDemo_staleTimer_counterexample :
    (run initState c3Trace).result = some (fallbackMockResult fileA "T7") ∧
    (run initState c3Trace).result ≠ some (demoMockResult "T7") ∧
    (run initState c3Trace).result ≠ some (demoMockResult "T8") ∧
    (run initState c3Trace).loading = true ∧
    (run initState c3Trace).timers = [] :=
  ⟨rfl, by decide, by decide, rfl, rfl⟩

/-! ### Interleaving lemmas for the amended cancellation claims -/

/-- Settling a fetch whose controller was already aborted takes the
AbortError path: the catch block returns, the finally block only
clears `loading` and the controller ref.  Result, error and toasts are
untouched, as are the pending timers and `timeoutRef`. -/
theorem reqComplete_allAborted (s : ClientState) (c : Nat) (out : ReqOutcome)
    (hreqs : ∀ r ∈ s.reqs, r.ctrl ∈ s.abortedCtrls) :
    visible (step s (.reqComplete c out)) = visible s ∧
    (step s (.reqComplete c out)).timers = s.timers ∧
    (step s (.reqComplete c out)).timeoutRef = s.timeoutRef ∧
    (step s (.reqComplete c out)).abortedCtrls = s.abortedCtrls ∧
    ∀ r ∈ (step s (.reqComplete c out)).reqs,
      r.ctrl ∈ (step s (.reqComplete c out)).abortedCtrls := by
  cases hf : s.reqs.find? (fun r => r.ctrl == c) with
  | none =>
    have hstep : step s (.reqComplete c out) = s := by
      simp [step, hf]
    rw [hstep]
    exact ⟨rfl, rfl, rfl, rfl, hreqs⟩
  | some r =>
    have hmem : r ∈ s.reqs := List.mem_of_find?_eq_some hf
    have hctrl : r.ctrl = c := by
      have h2 := List.find?_some hf
      simpa using h2
    have habort : c ∈ s.abortedCtrls := hctrl ▸ hreqs r hmem
    have hstep : step s (.reqComplete c out)
        = { s with reqs := s.reqs.filter (fun r2 => r2.ctrl ≠ c),
                   loading := false, abortCtrl := none } := by
      simp [step, hf, habort]
    rw [hstep]
    refine ⟨rfl, rfl, rfl, rfl, ?_⟩
    intro r2 hr2
    exact hreqs r2 (List.mem_of_mem_filter hr2)

/-- Firing a timer that is not pending is a no-op. -/
theorem timerFire_not_pending (s : ClientState) (tid : Nat) (t : String)
    (h : s.timers.find? (fun T => T.tid == tid) = none) :
    step s (.timerFire tid t) = s := by
  simp only [step, h]

/-- A stale callback delivered while the demo timer is pending leaves
the visible state unchanged and keeps the demo timer pending. -/
theorem stale_step_silent (s : ClientState) (dt : Nat) (e : ClientEvent)
    (hp : DemoPending s dt) (he : isStaleEvent dt e = true) :
    visible (step s e) = visible s ∧ DemoPending (step s e) dt := by
  obtain ⟨htimers, href, herr, hreqs⟩ := hp
  cases e with
  | reqComplete c out =>
    obtain ⟨hvis, htm, htr, hab, hrq⟩ := reqComplete_allAborted s c out hreqs
    refine ⟨hvis, ?_, ?_, ?_, hrq⟩
    · rw [htm, htimers]
    · rw [htr, href]
    · have herr2 : (step s (.reqComplete c out)).error = s.error :=
        congrArg (fun v => v.2.1) hvis
      rw [herr2, herr]
  | timerFire tid t =>
    have htid : tid ≠ dt := by
      simpa [isStaleEvent] using he
    have hfind : s.timers.find? (fun T => T.tid == tid) = none := by
      rw [htimers]
      have hbeq : (dt == tid) = false := beq_eq_false_iff_ne.mpr (Ne.symm htid)
      simp [List.find?, hbeq]
    rw [timerFire_not_pending s tid t hfind]
    exact ⟨rfl, htimers, href, herr, hreqs⟩
  | userDrop f accepted => simp [isStaleEvent] at he
  | userAnalyze => simp [isStaleEvent] at he
  | userDemo => simp [isStaleEvent] at he
  | userReset => simp [isStaleEvent] at he
  | userUploadDifferent => simp [isStaleEvent] at he

/-- Iterated version of the previous lemma. -/
theorem stale_run_silent (dt : Nat) (l : List ClientEvent) :
    ∀ s, DemoPending s dt → (∀ e ∈ l, isStaleEvent dt e = true) →
      visible (run s l) = visible s ∧ DemoPending (run s l) dt := by
  induction l with
  | nil => exact fun s hp _ => ⟨rfl, hp⟩
  | cons e l ih =>
    intro s hp hl
    have h1 := stale_step_silent s dt e hp (hl e (by simp))
    have h2 := ih (step s e) h1.2 fun e2 he2 => hl e2 (by simp [he2])
    have hrun : run s (e :: l) = run (step s e) l := by simp [run]
    rw [hrun]
    exact ⟨h2.1.trans h1.1, h2.2⟩

/-- Firing the pending demo timer: the canned result is set, loading
ends, no error, the completion toast is appended, and no pending timer
remains. -/
theorem demo_fire (s : ClientState) (dt : Nat) (t : String) (hp : DemoPending s dt) :
    (step s (.timerFire dt t)).result = some (demoMockResult t) ∧
    (step s (.timerFire dt t)).error = none ∧
    (step s (.timerFire dt t)).loading = false ∧
    (step s (.timerFire dt t)).toasts
      = s.toasts ++ ["Demo analysis complete! This is how real AI analysis works."] ∧
    DemoDone (step s (.timerFire dt t)) := by
  obtain ⟨htimers, href, herr, hreqs⟩ := hp
  have hfind : s.timers.find? (fun T => T.tid == dt) = some ⟨dt, .demo⟩ := by
    rw [htimers]
    simp [List.find?]
  have hstep : step s (.timerFire dt t)
      = { s with timers := s.timers.filter (fun T2 => T2.tid ≠ dt),
                 result := some (demoMockResult t),
                 loading := false,
                 timeoutRef := none,
                 toasts := s.toasts ++ ["Demo analysis complete! This is how real AI analysis works."] } := by
    simp [step, hfind, href]
  have hfil : s.timers.filter (fun T2 => T2.tid ≠ dt) = [] := by
    rw [htimers]
    simp
  rw [hstep]
  exact ⟨rfl, herr, rfl, rfl, hfil, fun r hr => hreqs r hr⟩

/-- After the demo completed, any further environment callback leaves
the visible state unchanged. -/
theorem done_step_silent (s : ClientState) (e : ClientEvent)
    (hd : DemoDone s) (he : isEnvEvent e = true) :
    visible (step s e) = visible s ∧ DemoDone (step s e) := by
  obtain ⟨htimers, hreqs⟩ := hd
  cases e with
  | reqComplete c out =>
    obtain ⟨hvis, htm, htr, hab, hrq⟩ := reqComplete_allAborted s c out hreqs
    exact ⟨hvis, htm.trans htimers, hrq⟩
  | timerFire tid t =>
    have hfind : s.timers.find? (fun T => T.tid == tid) = none := by
      rw [htimers]
      rfl
    rw [timerFire_not_pending s tid t hfind]
    exact ⟨rfl, htimers, hreqs⟩
  | userDrop f accepted => simp [isEnvEvent] at he
  | userAnalyze => simp [isEnvEvent] at he
  | userDemo => simp [isEnvEvent] at he
  | userReset => simp [isEnvEvent] at he
  | userUploadDifferent => simp [isEnvEvent] at he

/-- Iterated version of the previous lemma. -/
theorem done_run_silent (l : List ClientEvent) :
    ∀ s, DemoDone s → (∀ e ∈ l, isEnvEvent e = true) →
      visible (run s l) = visible s ∧ DemoDone (run s l) := by
  induction l with
  | nil => exact fun s hd _ => ⟨rfl, hd⟩
  | cons e l ih =>
    intro s hd hl
    have h1 := done_step_silent s e hd (hl e (by simp))
    have h2 := ih (step s e) h1.2 fun e2 he2 => hl e2 (by simp [he2])
    have hrun : run s (e :: l) = run (step s e) l := by simp [run]
    rw [hrun]
    exact ⟨h2.1.trans h1.1, h2.2⟩

/-- Starting runDemo from a state with a single live operation and the
demo button enabled puts the machine into the demo-pending
configuration, with the fresh timer id `s.nextTimer`. -/
theorem demoPending_after_userDemo (s : ClientState) (hl : s.loading = false)
    (hT : ∀ T ∈ s.timers, s.timeoutRef = some T.tid)
    (hR : ∀ r ∈ s.reqs, r.ctrl ∈ s.abortedCtrls ∨ s.abortCtrl = some r.ctrl) :
    DemoPending (step s .userDemo) s.nextTimer := by
  have hfil : (resetAnalysis s).timers = [] := by
    show s.timers.filter (fun T => some T.tid ≠ s.timeoutRef) = []
    rw [List.filter_eq_nil_iff]
    intro T hTmem
    simp [hT T hTmem]
  have hstep : step s .userDemo
      = { resetAnalysis s with
          loading := true
          error := none
          file := some demoFile
          timers := (resetAnalysis s).timers ++ [⟨(resetAnalysis s).nextTimer, .demo⟩]
          timeoutRef := some (resetAnalysis s).nextTimer
          nextTimer := (resetAnalysis s).nextTimer + 1 } := by
    simp [step, hl]
  refine ⟨?_, ?_, ?_, ?_⟩
  · rw [hstep]
    show (resetAnalysis s).timers ++ [⟨(resetAnalysis s).nextTimer, .demo⟩] = _
    rw [hfil]
    rfl
  · rw [hstep]
    rfl
  · rw [hstep]
  · intro r hr
    have hr2 : r ∈ s.reqs := by
      rw [hstep] at hr
      exact hr
    show r.ctrl ∈ (step s .userDemo).abortedCtrls
    rw [hstep]
    show r.ctrl ∈ s.abortedCtrls ++ s.abortCtrl.toList
    rcases hR r hr2 with h | h
    · exact List.mem_append_left _ h
    · refine List.mem_append_right _ ?_
      rw [h]
      simp

/-- Invoking resetAnalysis while the demo timer is pending returns the
state to idle and clears the demo timer, so firing it afterwards is a
no-op and the canned result can never appear. -/
theorem reset_demoPending (s : ClientState) (dt : Nat) (t : String)
    (hp : DemoPending s dt) :
    (step s .userReset).result = none ∧
    (step s .userReset).error = none ∧
    (step s .userReset).loading = false ∧
    (step s .userReset).timers = [] ∧
    step (step s .userReset) (.timerFire dt t) = step s .userReset := by
  obtain ⟨htimers, href, herr, hreqs⟩ := hp
  have htm : (step s .userReset).timers = [] := by
    show s.timers.filter (fun T => some T.tid ≠ s.timeoutRef) = []
    rw [htimers, href]
    simp
  refine ⟨rfl, rfl, rfl, htm, ?_⟩
  apply timerFire_not_pending
  rw [htm]
  rfl

/-- C2 (corrected, second operation started through resetAnalysis).
From any state with at most one live operation (every pending timer is
the referenced one, every pending fetch aborted or current) and the
controls enabled, starting a demo run supersedes the previous
operation: every interleaving of stale callbacks — settlements of the
aborted fetches and expiries of the cleared timers — changes neither
result, error nor toasts; the demo timer then delivers the demo
operation canned result with no error; and any environment callbacks
arriving afterwards change nothing visible either.  (The original
claim, quantifying over a second direct analyzeProposal as well, is
refuted by the counterexample: that path clears no pending fallback
timer.) -/
theorem demo_supersedes_previous (s : ClientState) (hl : s.loading = false)
    (hT : ∀ T ∈ s.timers, s.timeoutRef = some T.tid)
    (hR : ∀ r ∈ s.reqs, r.ctrl ∈ s.abortedCtrls ∨ s.abortCtrl = some r.ctrl)
    (l l2 : List ClientEvent)
    (hstale : ∀ e ∈ l, isStaleEvent s.nextTimer e = true)
    (henv : ∀ e ∈ l2, isEnvEvent e = true)
    (t : String) :
    visible (run (step s .userDemo) l) = visible (step s .userDemo) ∧
    (step (run (step s .userDemo) l) (.timerFire s.nextTimer t)).result
      = some (demoMockResult t) ∧
    (step (run (step s .userDemo) l) (.timerFire s.nextTimer t)).error = none ∧
    visible (run (step (run (step s .userDemo) l) (.timerFire s.nextTimer t)) l2)
      = visible (step (run (step s .userDemo) l) (.timerFire s.nextTimer t)) := by
  have hp0 := demoPending_after_userDemo s hl hT hR
  have h1 := stale_run_silent s.nextTimer l (step s .userDemo) hp0 hstale
  have h2 := demo_fire (run (step s .userDemo) l) s.nextTimer t h1.2
  have h3 := done_run_silent l2 _ h2.2.2.2.2 henv
  exact ⟨h1.1, h2.1, h2.2.1, h3.1⟩

theorem demo_supersedes_previous_witness :
    (run initState c2SetupTrace).loading = false ∧
    visible (run (step (run initState c2SetupTrace) .userDemo) [.timerFire 0 "TX"])
      = visible (step (run initState c2SetupTrace) .userDemo) ∧
    (step (run (step (run initState c2SetupTrace) .userDemo) [.timerFire 0 "TX"])
        (.timerFire (run initState c2SetupTrace).nextTimer "TZ")).result
      = some (demoMockResult "TZ") :=
  ⟨by decide,
   (demo_supersedes_previous (run initState c2SetupTrace) (by decide) (by decide)
      (by decide) [.timerFire 0 "TX"] [] (by decide) (by decide) "TZ").1,
   (demo_supersedes_previous (run initState c2SetupTrace) (by decide) (by decide)
      (by decide) [.timerFire 0 "TX"] [] (by decide) (by decide) "TZ").2.1⟩

/-- C3 (corrected).  From any state with at most one live operation
(no stale timer beside the referenced one) and the demo button enabled,
runDemo terminates in the Succeeded terminal state: after any
interleaving of stale callbacks the demo timer delivers the fixed
canned result, with no error and loading over; and if resetAnalysis is
invoked at any point before the delay elapses, the state returns to
idle (no result, no error, not loading) and the demo timer is cleared,
so the canned result is never shown.  (The original claim over every
prior client state is refuted by the counterexample: a stale fallback
timer surviving from two overlapped analyses can null timeoutRef first,
making the demo callback bail out.) -/
theorem runDemo_terminal_and_reset (s : ClientState) (hl : s.loading = false)
    (hT : ∀ T ∈ s.timers, s.timeoutRef = some T.tid)
    (hR : ∀ r ∈ s.reqs, r.ctrl ∈ s.abortedCtrls ∨ s.abortCtrl = some r.ctrl)
    (l : List ClientEvent)
    (hstale : ∀ e ∈ l, isStaleEvent s.nextTimer e = true)
    (t : String) :
    ((step (run (step s .userDemo) l) (.timerFire s.nextTimer t)).result
        = some (demoMockResult t) ∧
     (step (run (step s .userDemo) l) (.timerFire s.nextTimer t)).error = none ∧
     (step (run (step s .userDemo) l) (.timerFire s.nextTimer t)).loading = false) ∧
    ((step (run (step s .userDemo) l) .userReset).result = none ∧
     (step (run (step s .userDemo) l) .userReset).error = none ∧
     (step (run (step s .userDemo) l) .userReset).loading = false ∧
     (step (run (step s .userDemo) l) .userReset).timers = [] ∧
     step (step (run (step s .userDemo) l) .userReset) (.timerFire s.nextTimer t)
       = step (run (step s .userDemo) l) .userReset) := by
  have hp0 := demoPending_after_userDemo s hl hT hR
  have h1 := stale_run_silent s.nextTimer l (step s .userDemo) hp0 hstale
  have h2 := demo_fire (run (step s .userDemo) l) s.nextTimer t h1.2
  have h3 := reset_demoPending (run (step s .userDemo) l) s.nextTimer t h1.2
  exact ⟨⟨h2.1, h2.2.1, h2.2.2.1⟩, h3⟩

theorem runDemo_terminal_and_reset_witness :
    (step (run (step (run initState c2SetupTrace) .userDemo)
        [.reqComplete 9 .networkError])
      (.timerFire (run initState c2SetupTrace).nextTimer "TW")).result
      = some (demoMockResult "TW") ∧
    (step (run (step (run initState c2SetupTrace) .userDemo)
        [.reqComplete 9 .networkError]) .userReset).result = none :=
  ⟨(runDemo_terminal_and_reset (run initState c2SetupTrace) (by decide) (by decide)
      (by decide) [.reqComplete 9 .networkError] (by decide) "TW").1.1,
   (runDemo_terminal_and_reset (run initState c2SetupTrace) (by decide) (by decide)
      (by decide) [.reqComplete 9 .networkError] (by decide) "TW").2.1⟩

end AIProposal
